import Mathlib

/-
Verification of the playwright-mcp-http server core: the session manager
(src/playwright/browser.ts), the tool dispatcher and workflow engine
(src/mcp/tools.ts), and schema validation (src/mcp/registry.ts,
src/mcp/schemas.ts), shallowly embedded in Lean.

External collaborators (the playwright engine, the WHATWG URL parser,
the filesystem and the clock) are modelled as oracle parameters; all
control flow, state mutation and message construction of the repository
code itself is embedded directly.
-/

set_option maxHeartbeats 3000000

namespace PMCP

/-! ## JavaScript argument values (for `Record<string, any>` maps) -/

/-- A JavaScript value as it can appear in a tool-call argument map.
`arr` and `obj` carry only their string coercion (their contents are
irrelevant to the embedded code, which never indexes into them). -/
inductive JSValue where
  | str (s : String)
  | num (n : Int)
  | bool (b : Bool)
  | null
  | arr (disp : String)
  | obj (disp : String)
  deriving Repr, DecidableEq

/-- JavaScript `typeof` on an argument value. Note `typeof null` is
`"object"`. -/
def typeofJS : JSValue → String
  | .str _ => "string"
  | .num _ => "number"
  | .bool _ => "boolean"
  | .null => "object"
  | .arr _ => "object"
  | .obj _ => "object"

/-- JavaScript `Array.isArray`. -/
def isArrayJS : JSValue → Bool
  | .arr _ => true
  | _ => false

/-- JavaScript truthiness of a possibly-undefined value (`none` stands
for an absent key, i.e. `undefined`). -/
def jsTruthy : Option JSValue → Bool
  | none => false
  | some (.str s) => s ≠ ""
  | some (.num n) => n ≠ 0
  | some (.bool b) => b
  | some .null => false
  | some (.arr _) => true
  | some (.obj _) => true

/-- String coercion of a possibly-undefined value, as used in template
literals such as `Invalid URL: ${url}`. -/
def jsDisplay : Option JSValue → String
  | none => "undefined"
  | some (.str s) => s
  | some (.num n) => toString n
  | some (.bool b) => toString b
  | some .null => "null"
  | some (.arr d) => d
  | some (.obj d) => d

/-- Lookup in an association list modelling a JavaScript object /
`Map` (first binding for a key wins; well-formed states bind each key
at most once). -/
def getKey {α : Type} : List (String × α) → String → Option α
  | [], _ => none
  | (k, v) :: rest, key => if k = key then some v else getKey rest key

/-- JavaScript `map.set(key, v)` / property assignment: replace the binding in
place, or append a new one. -/
def setKey {α : Type} : List (String × α) → String → α → List (String × α)
  | [], key, v => [(key, v)]
  | (k, w) :: rest, key, v =>
    if k = key then (k, v) :: rest else (k, w) :: setKey rest key v

/-- JavaScript `map.delete(key)`: remove the binding for a key. -/
def delKey {α : Type} : List (String × α) → String → List (String × α)
  | [], _ => []
  | (k, w) :: rest, key => if k = key then rest else (k, w) :: delKey rest key

/-- JavaScript `key in object`. -/
def hasKey {α : Type} (m : List (String × α)) (key : String) : Bool :=
  (getKey m key).isSome

/-! ## Tool registry (src/mcp/schemas.ts, src/mcp/registry.ts) -/

/-- One property of a tool's input schema. -/
structure PropSchema where
  type : String
  deriving Repr, DecidableEq

/-- A declared tool schema (`MCPTool` in src/types.ts). -/
structure MCPTool where
  name : String
  description : String
  properties : List (String × PropSchema)
  required : List String
  deriving Repr, DecidableEq

/-- The registered tool schemas. The first eight entries are embedded
from src/mcp/schemas.ts. The ninth, `execute_workflow`, is routed by
the dispatcher in src/mcp/tools.ts but its schema declaration is not
among the source files; it is `Modelled from the spec:` the operation
takes one required string argument naming the workflow (the handler
reads `request.arguments.workflow` and demands a non-empty string). -/
def toolSchemas : List (String × MCPTool) :=
  [("open_page",
    { name := "open_page", description := "Open a URL in a browser and navigate to it",
      properties := [("url", { type := "string" })], required := ["url"] }),
   ("click",
    { name := "click", description := "Click on an element matching the selector",
      properties := [("selector", { type := "string" })], required := ["selector"] }),
   ("fill",
    { name := "fill", description := "Fill an input field with text",
      properties := [("selector", { type := "string" }), ("text", { type := "string" })],
      required := ["selector", "text"] }),
   ("wait_for_selector",
    { name := "wait_for_selector",
      description := "Wait for an element to appear on the page (up to 30 seconds)",
      properties := [("selector", { type := "string" }), ("timeout", { type := "number" })],
      required := ["selector"] }),
   ("fill_and_wait",
    { name := "fill_and_wait", description := "Fill an input field and wait for next element to appear",
      properties := [("selector", { type := "string" }), ("text", { type := "string" }),
        ("waitFor", { type := "string" }), ("timeout", { type := "number" })],
      required := ["selector", "text", "waitFor"] }),
   ("get_title",
    { name := "get_title", description := "Get the title of the current page",
      properties := [], required := [] }),
   ("screenshot",
    { name := "screenshot", description := "Take a screenshot of the current page and return base64",
      properties := [], required := [] }),
   ("close_browser",
    { name := "close_browser", description := "Close the browser and end the session",
      properties := [], required := [] }),
   ("execute_workflow",
    { name := "execute_workflow", description := "Execute a named workflow",
      properties := [("workflow", { type := "string" })], required := ["workflow"] })]

/-- Result of `validateInput` (src/mcp/registry.ts). -/
structure ValidationResult where
  valid : Bool
  error : Option String
  deriving Repr, DecidableEq

/-- The `actualType` computed by `validateInput`:
`Array.isArray(value) ? "array" : typeof value`. -/
def actualTypeJS (v : JSValue) : String :=
  if isArrayJS v then "array" else typeofJS v

/-- The function `validateInput` from src/mcp/registry.ts lines 29-64: unknown tool,
then missing required keys, then declared-type mismatches for present
keys (a `null` value is exempted by the `value !== null` conjunct). -/
def validateInput (toolName : String) (input : List (String × JSValue)) : ValidationResult :=
  match getKey toolSchemas toolName with
  | none => { valid := false, error := some ("Tool \"" ++ toolName ++ "\" not found") }
  | some tool =>
    match tool.required.find? (fun k => !(hasKey input k)) with
    | some k =>
      { valid := false, error := some ("Missing required parameter: \"" ++ k ++ "\"") }
    | none =>
      match input.find? (fun kv =>
          match getKey tool.properties kv.1 with
          | some p => decide (p.type ≠ actualTypeJS kv.2 ∧ kv.2 ≠ .null)
          | none => false) with
      | some kv =>
        { valid := false,
          error := some ("Parameter \"" ++ kv.1 ++ "\" must be of type \"" ++
            (match getKey tool.properties kv.1 with
             | some p => p.type
             | none => "") ++ "\", got \"" ++ actualTypeJS kv.2 ++ "\"") }
      | none => { valid := true, error := none }

/-! ## Session manager (src/unnamed/part_003, class BrowserManager) -/

/-- A `BrowserSession` (src/types.ts): the wrapped browser handle and
the isolated context and page, plus the creation time. Handles,
contexts and pages are identified by the allocation numbers the manager
hands out, so two sessions are the same JavaScript object exactly when
they are equal as records. -/
structure BrowserSession where
  browser : Nat
  context : Nat
  page : Nat
  createdAt : Nat
  deriving Repr, DecidableEq

/-- The mutable state of the `BrowserManager` singleton. `nextHandle`
is the allocator for fresh browser/context/page identities (modelling
object allocation by the external engine). -/
structure BrowserManager where
  sessions : List (String × BrowserSession)
  browserInstance : Option Nat
  lastSessionId : Option String
  initializationComplete : Bool
  nextHandle : Nat
  deriving Repr, DecidableEq

/-- Oracle outcomes of the external engine and platform calls made by
the manager and the dispatcher: the liveness probe
`page.evaluate(() => true)`, the connectivity probe
`browserInstance.version()`, `chromium.launch`, `Date.now()` and the
random suffix drawn by `generateSessionId`. -/
structure BrowserEnv where
  pageAlive : BrowserSession → Bool
  browserConnected : Nat → Bool
  launchOk : Bool
  now : Nat
  rand : String

/-- Lines 97-113 of the manager: create a context and page on browser
handle `b`, wrap them as a session, register it under `sessionId` and
remember the key as last used. (`scheduleSessionCleanup` only arms a
timer and does not change the manager state.) -/
def mkSessionOn (env : BrowserEnv) (b : Nat) (sessionId : String) (st : BrowserManager) :
    BrowserSession × BrowserManager :=
  let session : BrowserSession :=
    { browser := b, context := st.nextHandle, page := st.nextHandle + 1, createdAt := env.now }
  (session,
   { st with sessions := setKey st.sessions sessionId session,
             lastSessionId := some sessionId,
             nextHandle := st.nextHandle + 2 })

/-- Lines 75-114 of the manager: the browser-connectivity check (which
clears all sessions when the version probe fails), the lazy launch, and
session creation. A launch failure propagates as a thrown error,
leaving the state mutated so far. -/
def createSession (env : BrowserEnv) (sessionId : String) (st0 : BrowserManager) :
    Except (String × BrowserManager) (BrowserSession × BrowserManager) :=
  let st :=
    match st0.browserInstance with
    | some b =>
      if env.browserConnected b then st0
      else { st0 with browserInstance := none, sessions := [] }
    | none => st0
  match st.browserInstance with
  | some b => .ok (mkSessionOn env b sessionId st)
  | none =>
    if env.launchOk then
      .ok (mkSessionOn env st.nextHandle sessionId
        { st with browserInstance := some st.nextHandle, nextHandle := st.nextHandle + 1 })
    else .error ("chromium.launch failed", st)

/-- The method `getOrCreateSession` (src/unnamed/part_003 lines 53-115): reuse a
registered session whose liveness probe succeeds; on probe failure
delete that binding and null the shared browser instance, then fall
through to `createSession`. -/
def getOrCreateSession (env : BrowserEnv) (sessionId : String) (st0 : BrowserManager) :
    Except (String × BrowserManager) (BrowserSession × BrowserManager) :=
  let st := if st0.initializationComplete then st0
            else { st0 with initializationComplete := true }
  match getKey st.sessions sessionId with
  | some session =>
    if env.pageAlive session then .ok (session, st)
    else
      createSession env sessionId
        { st with sessions := delKey st.sessions sessionId, browserInstance := none }
  | none => createSession env sessionId st

/-- The method `getSession` (lines 142-148): pure lookup, substituting the
last-used key when the argument is null or falsy. -/
def getSession (st : BrowserManager) (sessionId : Option String) : Option BrowserSession :=
  let actual : Option String :=
    match sessionId with
    | some s => if s = "" then st.lastSessionId else some s
    | none => st.lastSessionId
  match actual with
  | none => none
  | some k => getKey st.sessions k

/-- The method `closeSession` (lines 154-172): best-effort page/context close (no
state effect), removal of the binding, and closing the browser when the
collection is left (or found) empty. -/
def closeSession (st0 : BrowserManager) (sessionId : String) : BrowserManager :=
  let st :=
    match getKey st0.sessions sessionId with
    | some _ => { st0 with sessions := delKey st0.sessions sessionId }
    | none => st0
  if st.sessions.isEmpty then { st with browserInstance := none } else st

/-! ## Timestamps (`new Date().toISOString().replace(/[:.]/g,'-').slice(0,-5)`)

The repository computes a per-step timestamp from the platform's
`Date.prototype.toISOString`. The builtin itself is modelled here from
the ECMAScript specification (proleptic Gregorian calendar, format
`YYYY-MM-DDTHH:mm:ss.sssZ` for years 0..9999); the `.replace` and
`.slice` applied to it are the repository's own code. -/

/-- Civil date (year, month, day) from days since 1970-01-01
(a standard days-to-Gregorian conversion, valid for all `days ≥ 0`). -/
def civilFromDays (days : Nat) : Nat × Nat × Nat :=
  let z := days + 719468
  let era := z / 146097
  let doe := z % 146097
  let yoe := (doe - doe / 1460 + doe / 36524 - doe / 146096) / 365
  let y := yoe + era * 400
  let doy := doe - (365 * yoe + yoe / 4 - yoe / 100)
  let mp := (5 * doy + 2) / 153
  let d := doy - (153 * mp + 2) / 5 + 1
  let m := if mp < 10 then mp + 3 else mp - 9
  (if m ≤ 2 then y + 1 else y, m, d)

/-- Days since 1970-01-01 from a civil date (the inverse conversion,
used only to prove the formatter injective). -/
def daysFromCivil (y m d : Nat) : Nat :=
  let y' := if m ≤ 2 then y - 1 else y
  let era := y' / 400
  let yoe := y' - era * 400
  let mp := if m > 2 then m - 3 else m + 9
  let doy := (153 * mp + 2) / 5 + d - 1
  let doe := yoe * 365 + yoe / 4 - yoe / 100 + doy
  era * 146097 + doe - 719468

/-- Two decimal digits, zero padded. -/
def padTwo (n : Nat) : List Char :=
  [Char.ofNat (48 + n / 10 % 10), Char.ofNat (48 + n % 10)]

/-- Three decimal digits, zero padded. -/
def padThree (n : Nat) : List Char :=
  [Char.ofNat (48 + n / 100 % 10), Char.ofNat (48 + n / 10 % 10), Char.ofNat (48 + n % 10)]

/-- Four decimal digits, zero padded. -/
def padFour (n : Nat) : List Char :=
  [Char.ofNat (48 + n / 1000 % 10), Char.ofNat (48 + n / 100 % 10),
   Char.ofNat (48 + n / 10 % 10), Char.ofNat (48 + n % 10)]

/-- The character list of `new Date(t).toISOString()` for an epoch
instant `t` in milliseconds (ECMAScript 21.4.4.36, years 0..9999). -/
def isoChars (t : Nat) : List Char :=
  let sAll := t / 1000
  let c := civilFromDays (sAll / 86400)
  padFour c.1 ++ '-' :: padTwo c.2.1 ++ '-' :: padTwo c.2.2 ++
    'T' :: padTwo (sAll / 3600 % 24) ++ ':' :: padTwo (sAll / 60 % 60) ++
    ':' :: padTwo (sAll % 60) ++ '.' :: padThree (t % 1000) ++ ['Z']

/-- The character substitution performed by `.replace(/[:.]/g, '-')`. -/
def replaceTsChar (c : Char) : Char := if c = ':' ∨ c = '.' then '-' else c

/-- The repository's timestamp (src/mcp/tools.ts line 644):
`new Date().toISOString().replace(/[:.]/g, '-').slice(0, -5)`, i.e. the
global single-character substitution followed by dropping the last five
characters (`-sssZ`). -/
def fmtTimestampChars (t : Nat) : List Char :=
  let cs := (isoChars t).map replaceTsChar
  cs.take (cs.length - 5)

/-- The timestamp as a string. -/
def workflowTimestamp (t : Nat) : String := String.mk (fmtTimestampChars t)

/-- JavaScript `String.prototype.replace` with a plain-string pattern:
replace the first occurrence only (empty pattern matches at the
front). -/
def replaceFirstAux (pat rep : List Char) : List Char → List Char
  | [] => if pat.isEmpty then rep else []
  | c :: rest =>
    if pat.isPrefixOf (c :: rest) then rep ++ (c :: rest).drop pat.length
    else c :: replaceFirstAux pat rep rest

/-- JavaScript `s.replace(pat, rep)` for a plain-string `pat`. -/
def replaceFirst (s pat rep : String) : String :=
  String.mk (replaceFirstAux pat.data rep.data s.data)

/-! ## Workflow engine (src/mcp/tools.ts, handleExecuteWorkflow) -/

/-- The `arguments` object of a workflow step as loaded from JSON. -/
structure StepArguments where
  url : Option String
  selector : Option String
  text : Option String
  timeout : Option Int
  deriving Repr, DecidableEq

/-- One step of a workflow definition. -/
structure WorkflowStep where
  action : String
  arguments : StepArguments
  description : String
  waitAfter : Option Int
  deriving Repr, DecidableEq

/-- A parsed workflow definition file. -/
structure Workflow where
  name : String
  description : String
  steps : List WorkflowStep
  deriving Repr, DecidableEq

/-- The value a successful step case returns (lines 654-701). -/
inductive StepValue where
  | page (url title : String)
  | clicked (selector : Option String)
  | filled (selector text : Option String)
  | appeared (selector : Option String)
  | enabled (selector : Option String)
  | shot (preview : String)
  deriving Repr, DecidableEq

/-- One entry of the per-step result log (lines 719-726 and 739-746). -/
structure StepRecord where
  step : Nat
  action : String
  description : String
  success : Bool
  result : Option StepValue
  error : Option String
  duration : Nat
  deriving Repr, DecidableEq

/-- Oracle outcomes of the engine capability calls issued by the
workflow loop, indexed by step position: the clock read at the start of
iteration `i`, whether the 30-second ceiling promise settles first, the
measured duration, and the settled outcome of each possible capability
call. The 500 ms polling loop of `wait_for_enabled` is abstracted to
whether it observes the element enabled before its deadline. -/
structure WorkflowEnv where
  stepClock : Nat → Nat
  timedOut : Nat → Bool
  duration : Nat → Nat
  gotoRes : Nat → Except String Unit
  pageUrl : Nat → String
  titleRes : Nat → Except String String
  clickRes : Nat → Except String Unit
  fillRes : Nat → Except String Unit
  waitRes : Nat → Except String Unit
  pollEnabled : Nat → Bool
  shotRes : Nat → Except String String

/-- Template-literal display of a possibly-undefined string. -/
def optDisplay : Option String → String
  | some s => s
  | none => "undefined"

/-- Lines 643-647: substitute the first `\x7btimestamp\x7d` occurrence in
the step's `text` argument (and only there), when that argument is a
truthy string. -/
def substTimestampStep (ts : String) (step : WorkflowStep) : WorkflowStep :=
  match step.arguments.text with
  | some s =>
    if s = "" then step
    else { step with arguments :=
      { step.arguments with text := some (replaceFirst s "{timestamp}" ts) } }
  | none => step

/-- The switch on `step.action` (lines 654-705). -/
def runStepAction (env : WorkflowEnv) (i : Nat) (step : WorkflowStep) :
    Except String StepValue :=
  match step.action with
  | "open_page" =>
    match env.gotoRes i with
    | .error e => .error e
    | .ok _ =>
      match env.titleRes i with
      | .error e => .error e
      | .ok t => .ok (.page (env.pageUrl i) t)
  | "click" =>
    match env.clickRes i with
    | .error e => .error e
    | .ok _ => .ok (.clicked step.arguments.selector)
  | "fill" =>
    match env.fillRes i with
    | .error e => .error e
    | .ok _ => .ok (.filled step.arguments.selector step.arguments.text)
  | "wait_for_selector" =>
    match env.waitRes i with
    | .error e => .error e
    | .ok _ => .ok (.appeared step.arguments.selector)
  | "wait_for_enabled" =>
    let waitTimeout : Int :=
      min (match step.arguments.timeout with
           | some n => if n = 0 then 30000 else n
           | none => 30000) 30000
    if env.pollEnabled i then .ok (.enabled step.arguments.selector)
    else .error ("Element " ++ optDisplay step.arguments.selector ++
      " did not become enabled within " ++ toString waitTimeout ++ "ms")
  | "screenshot" =>
    match env.shotRes i with
    | .error e => .error e
    | .ok b64 => .ok (.shot (b64.take 50 ++ "... (" ++ toString b64.length ++ " chars)"))
  | other => .error ("Unknown action: " ++ other)

/-- The `Promise.race` of the step body against the 30-second ceiling
(lines 709-714): if the ceiling settles first the step fails with the
`STEP TIMEOUT` error naming the action and target. -/
def raceStep (env : WorkflowEnv) (i : Nat) (step : WorkflowStep) : Except String StepValue :=
  if env.timedOut i then
    .error ("STEP TIMEOUT: Operation exceeded 30 seconds - " ++ step.action ++ " on " ++
      (match step.arguments.selector with
       | some s => if s = "" then "N/A" else s
       | none => "N/A"))
  else runStepAction env i step

/-- The thrown `WORKFLOW STOPPED` message (line 749). -/
def workflowStopMsg (i : Nat) (description : String) (dur : Nat) (msg : String) : String :=
  "WORKFLOW STOPPED: Step " ++ toString (i + 1) ++ " (" ++ description ++
    ") failed after " ++ toString dur ++ "ms - " ++ msg

/-- The step loop (lines 637-751). Returns the contents of the local
`results` array at the moment the loop ends, together with the thrown
`WORKFLOW STOPPED` error when a step failed: on failure the loop pushes
the failing record and throws, executing nothing further. -/
def runSteps (env : WorkflowEnv) : List WorkflowStep → Nat → List StepRecord × Option String
  | [], _ => ([], none)
  | step :: rest, i =>
    let ts := workflowTimestamp (env.stepClock i)
    let stepS := substTimestampStep ts step
    match raceStep env i stepS with
    | .ok v =>
      let r : StepRecord :=
        { step := i + 1, action := stepS.action, description := stepS.description,
          success := true, result := some v, error := none, duration := env.duration i }
      let rest' := runSteps env rest (i + 1)
      (r :: rest'.1, rest'.2)
    | .error msg =>
      ([{ step := i + 1, action := stepS.action, description := stepS.description,
          success := false, result := none, error := some msg, duration := env.duration i }],
       some (workflowStopMsg i stepS.description (env.duration i) msg))

/-- Oracle for the workflow files on disk: whether
`workflows/<name>.json` exists, and the outcome of reading and
JSON-parsing it. -/
structure WorkflowStore where
  found : String → Bool
  parsed : String → Except String Workflow

/-! ## Tool dispatcher (src/mcp/tools.ts, class ToolExecutor) -/

/-- The data payload a handler returns, one constructor per tool. -/
inductive ToolData where
  | openPage (url title sessionId : String)
  | clicked (message sessionId : String)
  | filled (message sessionId : String)
  | title (t sessionId : String)
  | shot (screenshot sessionId : String)
  | waited (message : String) (appeared : Bool) (sessionId : String)
  | fillWait (message : String) (filledOk appearedOk : Bool) (sessionId : String)
  | closed (message sessionId : String)
  | workflow (message : String) (stepsExecuted : Nat) (results : List StepRecord)
      (sessionId : String)
  deriving Repr, DecidableEq

/-- Oracle outcomes of the page capability calls issued by the
dispatcher handlers against a session's page, plus the WHATWG URL
parser consulted by `isValidUrl`. -/
structure PageEnv where
  isValidUrl : String → Bool
  gotoRes : BrowserSession → String → Except String Unit
  pageUrl : BrowserSession → String
  titleRes : BrowserSession → Except String String
  clickRes : BrowserSession → String → Except String Unit
  fillRes : BrowserSession → String → String → Except String Unit
  waitRes : BrowserSession → String → Int → Except String Unit
  shotRes : BrowserSession → Except String String

/-- The `getSession`-then-`getOrCreateSession` fallback shared by the
click/fill/title/screenshot/wait handlers. -/
def getSessionOrCreate (benv : BrowserEnv) (sessionId : String) (st : BrowserManager) :
    Except (String × BrowserManager) (BrowserSession × BrowserManager) :=
  match getSession st (some sessionId) with
  | some session => .ok (session, st)
  | none => getOrCreateSession benv sessionId st

/-- The handler `handleOpenPage` (lines 408-427): URL validation happens before any
session acquisition; only then is the session created and the
navigation issued. -/
def handleOpenPage (benv : BrowserEnv) (penv : PageEnv) (sessionId : String)
    (urlArg : Option JSValue) (st : BrowserManager) :
    Except (String × BrowserManager) (ToolData × BrowserManager) :=
  match urlArg with
  | some (.str url) =>
    if !(penv.isValidUrl url) then .error ("Invalid URL: " ++ url, st)
    else
      match getOrCreateSession benv sessionId st with
      | .error e => .error e
      | .ok (session, st') =>
        match penv.gotoRes session url with
        | .error e => .error (e, st')
        | .ok _ =>
          match penv.titleRes session with
          | .error e => .error (e, st')
          | .ok t => .ok (.openPage (penv.pageUrl session) t sessionId, st')
  | other => .error ("Invalid URL: " ++ jsDisplay other, st)

/-- The handler `handleClick` (lines 429-448). -/
def handleClick (benv : BrowserEnv) (penv : PageEnv) (sessionId : String)
    (selectorArg : Option JSValue) (st : BrowserManager) :
    Except (String × BrowserManager) (ToolData × BrowserManager) :=
  match selectorArg with
  | some (.str selector) =>
    if selector = "" then .error ("Selector must be a non-empty string", st)
    else
      match getSessionOrCreate benv sessionId st with
      | .error e => .error e
      | .ok (session, st') =>
        match penv.clickRes session selector with
        | .error e => .error (e, st')
        | .ok _ => .ok (.clicked ("Clicked element: " ++ selector) sessionId, st')
  | _ => .error ("Selector must be a non-empty string", st)

/-- The handler `handleFill` (lines 450-473). -/
def handleFill (benv : BrowserEnv) (penv : PageEnv) (sessionId : String)
    (selectorArg textArg : Option JSValue) (st : BrowserManager) :
    Except (String × BrowserManager) (ToolData × BrowserManager) :=
  match selectorArg with
  | some (.str selector) =>
    if selector = "" then .error ("Selector must be a non-empty string", st)
    else
      match textArg with
      | some (.str text) =>
        match getSessionOrCreate benv sessionId st with
        | .error e => .error e
        | .ok (session, st') =>
          match penv.fillRes session selector text with
          | .error e => .error (e, st')
          | .ok _ => .ok (.filled ("Filled " ++ selector ++ " with text") sessionId, st')
      | _ => .error ("Text must be a string", st)
  | _ => .error ("Selector must be a non-empty string", st)

/-- The handler `handleGetTitle` (lines 475-486). -/
def handleGetTitle (benv : BrowserEnv) (penv : PageEnv) (sessionId : String)
    (st : BrowserManager) :
    Except (String × BrowserManager) (ToolData × BrowserManager) :=
  match getSessionOrCreate benv sessionId st with
  | .error e => .error e
  | .ok (session, st') =>
    match penv.titleRes session with
    | .error e => .error (e, st')
    | .ok t => .ok (.title t sessionId, st')

/-- The handler `handleScreenshot` (lines 488-503). -/
def handleScreenshot (benv : BrowserEnv) (penv : PageEnv) (sessionId : String)
    (st : BrowserManager) :
    Except (String × BrowserManager) (ToolData × BrowserManager) :=
  match getSessionOrCreate benv sessionId st with
  | .error e => .error e
  | .ok (session, st') =>
    match penv.shotRes session with
    | .error e => .error (e, st')
    | .ok b64 => .ok (.shot b64 sessionId, st')

/-- The handler `handleWaitForSelector` (lines 505-541): a waitForSelector failure
is caught and reported as `appeared: false`, never thrown. -/
def handleWaitForSelector (benv : BrowserEnv) (penv : PageEnv) (sessionId : String)
    (selectorArg timeoutArg : Option JSValue) (st : BrowserManager) :
    Except (String × BrowserManager) (ToolData × BrowserManager) :=
  match selectorArg with
  | some (.str selector) =>
    if selector = "" then .error ("Selector must be a non-empty string", st)
    else
      match getSessionOrCreate benv sessionId st with
      | .error e => .error e
      | .ok (session, st') =>
        let waitTimeout : Int :=
          match timeoutArg with
          | some (.num n) => if n = 0 then 30000 else n
          | _ => 30000
        match penv.waitRes session selector waitTimeout with
        | .ok _ => .ok (.waited ("Element appeared: " ++ selector) true sessionId, st')
        | .error _ => .ok (.waited ("Element did not appear: " ++ selector) false sessionId, st')
  | _ => .error ("Selector must be a non-empty string", st)

/-- The handler `handleFillAndWait` (lines 543-595). -/
def handleFillAndWait (benv : BrowserEnv) (penv : PageEnv) (sessionId : String)
    (selectorArg textArg waitForArg timeoutArg : Option JSValue) (st : BrowserManager) :
    Except (String × BrowserManager) (ToolData × BrowserManager) :=
  match selectorArg with
  | some (.str selector) =>
    if selector = "" then .error ("Selector must be a non-empty string", st)
    else
      match textArg with
      | some (.str text) =>
        match waitForArg with
        | some (.str waitFor) =>
          if waitFor = "" then .error ("waitFor must be a non-empty string", st)
          else
            match getSessionOrCreate benv sessionId st with
            | .error e => .error e
            | .ok (session, st') =>
              match penv.fillRes session selector text with
              | .error e => .error (e, st')
              | .ok _ =>
                let waitTimeout : Int :=
                  match timeoutArg with
                  | some (.num n) => if n = 0 then 30000 else n
                  | _ => 30000
                match penv.waitRes session waitFor waitTimeout with
                | .ok _ =>
                  .ok (.fillWait "Filled and next element appeared" true true sessionId, st')
                | .error _ =>
                  .ok (.fillWait "Filled but next element did not appear" true false sessionId,
                    st')
        | _ => .error ("waitFor must be a non-empty string", st)
      | _ => .error ("Text must be a string", st)
  | _ => .error ("Selector must be a non-empty string", st)

/-- The handler `handleCloseBrowser` (lines 597-603). -/
def handleCloseBrowser (sessionId : String) (st : BrowserManager) :
    Except (String × BrowserManager) (ToolData × BrowserManager) :=
  .ok (.closed ("Session " ++ sessionId ++ " closed") sessionId, closeSession st sessionId)

/-- The handler `handleExecuteWorkflow` (lines 605-761): argument check, workflow
file resolution, fresh session acquisition, the step loop, and the
success payload. A failed step's thrown `WORKFLOW STOPPED` error
propagates out of the handler, abandoning the accumulated `results`
array (only the loop's first component on the success path reaches the
returned payload). -/
def handleExecuteWorkflow (benv : BrowserEnv) (wenv : WorkflowEnv) (store : WorkflowStore)
    (sessionId : String) (workflowArg : Option JSValue) (st : BrowserManager) :
    Except (String × BrowserManager) (ToolData × BrowserManager) :=
  match workflowArg with
  | some (.str workflowName) =>
    if workflowName = "" then .error ("Workflow name must be a non-empty string", st)
    else if !(store.found workflowName) then
      .error ("Workflow \"" ++ workflowName ++
        "\" not found. Available workflows: bim-login-only, bim-login-and-create", st)
    else
      match store.parsed workflowName with
      | .error e => .error (e, st)
      | .ok workflow =>
        match getOrCreateSession benv sessionId st with
        | .error e => .error e
        | .ok (_session, st') =>
          match runSteps wenv workflow.steps 0 with
          | (results, none) =>
            .ok (.workflow ("Workflow \"" ++ workflow.name ++
                "\" completed successfully. Executed " ++ toString workflow.steps.length ++
                " steps.") workflow.steps.length results sessionId, st')
          | (_, some e) => .error (e, st')
  | _ => .error ("Workflow name must be a non-empty string", st)

/-- The request the HTTP layer hands to `execute`. -/
structure ToolCallRequest where
  tool : String
  arguments : List (String × JSValue)
  sessionId : Option String
  deriving Repr, DecidableEq

/-- The uniform response envelope (`ToolCallResponse` in src/types.ts). -/
structure ToolCallResponse where
  success : Bool
  data : Option ToolData
  error : Option String
  sessionId : String
  deriving Repr, DecidableEq

/-- The method `generateSessionId` (lines 763-765). -/
def generateSessionId (env : BrowserEnv) : String :=
  "session_" ++ toString env.now ++ "_" ++ env.rand

/-- JavaScript `a || b` on a possibly-absent string. -/
def orFalsy (v : Option String) (fallback : String) : String :=
  match v with
  | some s => if s = "" then fallback else s
  | none => fallback

/-- The session-key selection at the top of `execute` (lines 313-319):
`execute_workflow` always gets a freshly generated key; every other
tool uses `request.sessionId || getLastSessionId() || generated`. -/
def selectSessionId (env : BrowserEnv) (req : ToolCallRequest) (st : BrowserManager) : String :=
  if req.tool = "execute_workflow" then generateSessionId env
  else orFalsy req.sessionId (orFalsy st.lastSessionId (generateSessionId env))

/-- What the `switch (request.tool)` produced: a handler result, a
handler exception, or the `default` arm. -/
inductive DispatchResult where
  | success (d : ToolData) (st : BrowserManager)
  | failure (msg : String) (st : BrowserManager)
  | unknownTool
  deriving Repr, DecidableEq

/-- The `switch` of `execute` (lines 336-390), routing to the matching
handler with the arguments it destructures from the request. -/
def dispatch (benv : BrowserEnv) (penv : PageEnv) (wenv : WorkflowEnv) (store : WorkflowStore)
    (tool : String) (args : List (String × JSValue)) (sessionId : String)
    (st : BrowserManager) : DispatchResult :=
  let toDR : Except (String × BrowserManager) (ToolData × BrowserManager) → DispatchResult :=
    fun r =>
      match r with
      | .ok (d, st') => .success d st'
      | .error (m, st') => .failure m st'
  match tool with
  | "open_page" => toDR (handleOpenPage benv penv sessionId (getKey args "url") st)
  | "click" => toDR (handleClick benv penv sessionId (getKey args "selector") st)
  | "fill" =>
    toDR (handleFill benv penv sessionId (getKey args "selector") (getKey args "text") st)
  | "wait_for_selector" =>
    toDR (handleWaitForSelector benv penv sessionId (getKey args "selector")
      (getKey args "timeout") st)
  | "fill_and_wait" =>
    toDR (handleFillAndWait benv penv sessionId (getKey args "selector") (getKey args "text")
      (getKey args "waitFor") (getKey args "timeout") st)
  | "get_title" => toDR (handleGetTitle benv penv sessionId st)
  | "screenshot" => toDR (handleScreenshot benv penv sessionId st)
  | "close_browser" => toDR (handleCloseBrowser sessionId st)
  | "execute_workflow" =>
    toDR (handleExecuteWorkflow benv wenv store sessionId (getKey args "workflow") st)
  | _ => .unknownTool

/-- The method `execute` (lines 312-406): key selection, schema validation, the
handler switch, and the try/catch that converts every thrown handler
error into a `success: false` envelope carrying the message and the
resolved session key. By construction the function is total: no
exception escapes to the caller. -/
def execute (benv : BrowserEnv) (penv : PageEnv) (wenv : WorkflowEnv) (store : WorkflowStore)
    (req : ToolCallRequest) (st : BrowserManager) : ToolCallResponse × BrowserManager :=
  let sessionId := selectSessionId benv req st
  let v := validateInput req.tool req.arguments
  if !v.valid then
    ({ success := false, data := none, error := v.error, sessionId := sessionId }, st)
  else
    match dispatch benv penv wenv store req.tool req.arguments sessionId st with
    | .success d st' =>
      ({ success := true, data := some d, error := none, sessionId := sessionId }, st')
    | .failure m st' =>
      ({ success := false, data := none, error := some m, sessionId := sessionId }, st')
    | .unknownTool =>
      ({ success := false, data := none, error := some ("Unknown tool: " ++ req.tool),
         sessionId := sessionId }, st)

/-! ## Association-list lemmas -/

theorem getKey_delKey_ne {α : Type} (m : List (String × α)) (k k' : String) (h : k' ≠ k) :
    getKey (delKey m k) k' = getKey m k' := by
  induction m with
  | nil => rfl
  | cons kv rest ih =>
    obtain ⟨a, b⟩ := kv
    by_cases h1 : a = k <;> by_cases h2 : a = k' <;> simp_all [delKey, getKey]

theorem getKey_setKey_self {α : Type} (m : List (String × α)) (k : String) (v : α) :
    getKey (setKey m k v) k = some v := by
  induction m with
  | nil => simp [setKey, getKey]
  | cons kv rest ih =>
    obtain ⟨a, b⟩ := kv
    by_cases h1 : a = k <;> simp_all [setKey, getKey]

theorem getKey_setKey_ne {α : Type} (m : List (String × α)) (k k' : String) (v : α)
    (h : k' ≠ k) : getKey (setKey m k v) k' = getKey m k' := by
  induction m with
  | nil => simp [setKey, getKey, Ne.symm h]
  | cons kv rest ih =>
    obtain ⟨a, b⟩ := kv
    by_cases h1 : a = k <;> by_cases h2 : a = k' <;> simp_all [setKey, getKey]

theorem getKey_of_hasKey_false {α : Type} (m : List (String × α)) (k : String)
    (h : hasKey m k = false) : getKey m k = none := by
  unfold hasKey at h
  cases hm : getKey m k with
  | none => rfl
  | some v => rw [hm] at h; simp at h

/-! ## Claim theorems: session manager -/

/-- C5. If a session is registered under `k` and its liveness probe
succeeds, `getOrCreateSession k` returns that very session object, and
an immediately repeated call returns the same object again with the
manager state (in particular the session collection) unchanged. -/
theorem getOrCreateSession_reuse_identity (env : BrowserEnv) (k : String)
    (st : BrowserManager) (s : BrowserSession)
    (hreg : getKey st.sessions k = some s) (halive : env.pageAlive s = true) :
    ∃ st₁, getOrCreateSession env k st = .ok (s, st₁) ∧
      st₁.sessions = st.sessions ∧
      getOrCreateSession env k st₁ = .ok (s, st₁) := by
  refine ⟨if st.initializationComplete then st
          else { st with initializationComplete := true }, ?_, ?_, ?_⟩
  · unfold getOrCreateSession
    split_ifs with hinit <;> simp [hreg, halive]
  · split_ifs <;> rfl
  · unfold getOrCreateSession
    split_ifs with hinit <;> simp_all [hreg, halive]

/-- Fixture: a manager state with no sessions but a live browser
instance (reachable when context/page creation failed after a launch,
or after the one-session probe-failure path relaunched). -/
def stEmptyLive : BrowserManager :=
  { sessions := [], browserInstance := some 0, lastSessionId := none,
    initializationComplete := true, nextHandle := 1 }

/-- C6 counterexample. Closing an absent key is not a no-op on the
whole manager state: with an empty collection and a live browser
instance, `closeSession` on an unregistered key closes the browser
(`browserInstance` goes from `some 0` to `none`), because the code
closes the browser whenever the collection is empty after the (absent)
removal, not only when the removal emptied it. -/
theorem closeSession_absent_not_noop :
    hasKey stEmptyLive.sessions "missing" = false ∧
    closeSession stEmptyLive "missing" ≠ stEmptyLive ∧
    (closeSession stEmptyLive "missing").browserInstance = none := by
  refine ⟨by decide, by decide, by decide⟩

/-- C6 amended. `closeSession` on an absent key never errors and leaves
the session collection, last-used key, initialization flag and
allocator untouched; the manager state is fully unchanged whenever the
collection is non-empty, but with an already-empty collection the call
still closes the `BrowserHandle` (sets `browserInstance` to `none`). -/
theorem closeSession_absent_effect (st : BrowserManager) (k : String)
    (h : hasKey st.sessions k = false) :
    (closeSession st k).sessions = st.sessions ∧
    (closeSession st k).lastSessionId = st.lastSessionId ∧
    (closeSession st k).initializationComplete = st.initializationComplete ∧
    (closeSession st k).nextHandle = st.nextHandle ∧
    (st.sessions ≠ [] → closeSession st k = st) ∧
    (st.sessions = [] → closeSession st k = { st with browserInstance := none }) := by
  have hg := getKey_of_hasKey_false st.sessions k h
  have hiff : (st.sessions.isEmpty = true) ↔ st.sessions = [] := by
    cases st.sessions <;> simp
  unfold closeSession
  rw [hg]
  by_cases hs : st.sessions = []
  · rw [if_pos (hiff.mpr hs)]
    exact ⟨rfl, rfl, rfl, rfl, fun hne => absurd hs hne, fun _ => rfl⟩
  · rw [if_neg (fun hemp => hs (hiff.mp hemp))]
    exact ⟨rfl, rfl, rfl, rfl, fun _ => rfl, fun he => absurd he hs⟩

/-- C6 witness for the amended theorem, at a state with one registered
session and an absent key: the call is the identity. -/
theorem closeSession_absent_effect_at_example :
    hasKey [("k", (⟨0, 1, 2, 3⟩ : BrowserSession))] "other" = false ∧
    closeSession
      { sessions := [("k", ⟨0, 1, 2, 3⟩)], browserInstance := some 0,
        lastSessionId := some "k", initializationComplete := true, nextHandle := 3 }
      "other" =
      { sessions := [("k", ⟨0, 1, 2, 3⟩)], browserInstance := some 0,
        lastSessionId := some "k", initializationComplete := true, nextHandle := 3 } :=
  ⟨by decide,
   (closeSession_absent_effect
     { sessions := [("k", ⟨0, 1, 2, 3⟩)], browserInstance := some 0,
       lastSessionId := some "k", initializationComplete := true, nextHandle := 3 }
     "other" (by decide)).2.2.2.2.1 (by decide)⟩

/-- Fixture: an environment in which every probe succeeds. -/
def envAlive : BrowserEnv :=
  { pageAlive := fun _ => true, browserConnected := fun _ => true, launchOk := true,
    now := 50, rand := "zzz" }

/-- Fixture: a manager with one live session under key `k`. -/
def stOne : BrowserManager :=
  { sessions := [("k", ⟨0, 1, 2, 3⟩)], browserInstance := some 0, lastSessionId := some "k",
    initializationComplete := true, nextHandle := 3 }

/-- C5 witness: the reuse/identity theorem applied at a concrete
state. -/
theorem getOrCreateSession_reuse_identity_at_example :
    (getKey stOne.sessions "k" = some ⟨0, 1, 2, 3⟩ ∧
      envAlive.pageAlive ⟨0, 1, 2, 3⟩ = true) ∧
    (∃ st₁, getOrCreateSession envAlive "k" stOne = .ok (⟨0, 1, 2, 3⟩, st₁) ∧
      st₁.sessions = stOne.sessions ∧
      getOrCreateSession envAlive "k" st₁ = .ok (⟨0, 1, 2, 3⟩, st₁)) :=
  ⟨⟨by decide, by decide⟩,
   getOrCreateSession_reuse_identity envAlive "k" stOne ⟨0, 1, 2, 3⟩ (by decide) (by decide)⟩

/-- Fixture: two sessions sharing the browser handle. -/
def sOld1 : BrowserSession := ⟨0, 1, 2, 10⟩

/-- Fixture: the second pre-existing session. -/
def sOld2 : BrowserSession := ⟨0, 3, 4, 11⟩

/-- Fixture: a manager holding both sessions on handle 0. -/
def stTwo : BrowserManager :=
  { sessions := [("k1", sOld1), ("k2", sOld2)], browserInstance := some 0,
    lastSessionId := some "k2", initializationComplete := true, nextHandle := 5 }

/-- Fixture: an environment in which exactly `sOld1`'s liveness probe
fails. -/
def envDeadK1 : BrowserEnv :=
  { pageAlive := fun s => if s = sOld1 then false else true,
    browserConnected := fun _ => true, launchOk := true, now := 99, rand := "w" }

/-- C1 counterexample. With sessions under `k1` and `k2` and `k1`'s
liveness probe failing, `getOrCreateSession "k1"` deletes only `k1`'s
binding: after the call `k2`'s pre-call session is still registered, so
the collection is not cleared of all sessions created before the call
(the `sessions.clear()` of the disconnection branch is skipped, because
the probe-failure path has just nulled `browserInstance`). -/
theorem getOrCreateSession_probe_failure_keeps_other_sessions :
    getKey stTwo.sessions "k1" = some sOld1 ∧
    envDeadK1.pageAlive sOld1 = false ∧
    getKey stTwo.sessions "k2" = some sOld2 ∧
    getOrCreateSession envDeadK1 "k1" stTwo =
      .ok (⟨5, 6, 7, 99⟩,
        { sessions := [("k2", sOld2), ("k1", ⟨5, 6, 7, 99⟩)], browserInstance := some 5,
          lastSessionId := some "k1", initializationComplete := true, nextHandle := 8 }) ∧
    getKey [("k2", sOld2), ("k1", (⟨5, 6, 7, 99⟩ : BrowserSession))] "k2" = some sOld2 :=
  ⟨rfl, rfl, rfl, rfl, rfl⟩

/-- C1 amended. When the liveness probe of the session registered under
`k` fails, `getOrCreateSession k` deletes that binding, discards the
shared browser instance (the resulting state holds a freshly launched
handle, distinct from the old one) and registers a brand-new session
for `k` on it - but the bindings of every other key are left exactly as
they were: sessions created before the call remain registered. -/
theorem getOrCreateSession_probe_failure_purges_only_k
    (env : BrowserEnv) (k : String) (st : BrowserManager) (s : BrowserSession)
    (hreg : getKey st.sessions k = some s)
    (hdead : env.pageAlive s = false)
    (hlaunch : env.launchOk = true)
    (hhb : ∀ b, st.browserInstance = some b → b < st.nextHandle) :
    ∃ sN st', getOrCreateSession env k st = .ok (sN, st') ∧
      sN = { browser := st.nextHandle, context := st.nextHandle + 1,
             page := st.nextHandle + 2, createdAt := env.now } ∧
      getKey st'.sessions k = some sN ∧
      (∀ k', k' ≠ k → getKey st'.sessions k' = getKey st.sessions k') ∧
      st'.browserInstance = some st.nextHandle ∧
      st'.browserInstance ≠ st.browserInstance := by
  refine ⟨{ browser := st.nextHandle, context := st.nextHandle + 1,
            page := st.nextHandle + 2, createdAt := env.now },
    { sessions := setKey (delKey st.sessions k) k
        { browser := st.nextHandle, context := st.nextHandle + 1,
          page := st.nextHandle + 2, createdAt := env.now },
      browserInstance := some st.nextHandle, lastSessionId := some k,
      initializationComplete := true, nextHandle := st.nextHandle + 3 }, ?_, rfl, ?_, ?_, rfl, ?_⟩
  · unfold getOrCreateSession createSession mkSessionOn
    split_ifs with hinit <;> simp [hreg, hdead, hlaunch, hinit]
  · exact getKey_setKey_self _ _ _
  · intro k' hk'
    rw [getKey_setKey_ne _ _ _ _ hk', getKey_delKey_ne _ _ _ hk']
  · intro hbad
    cases hb : st.browserInstance with
    | none => rw [hb] at hbad; exact Option.noConfusion hbad
    | some b =>
      rw [hb] at hbad
      have := hhb b hb
      have heq : st.nextHandle = b := by injection hbad
      omega

/-- C1 witness for the amended theorem, at the two-session fixture. -/
theorem getOrCreateSession_probe_failure_purges_only_k_at_example :
    (getKey stTwo.sessions "k1" = some sOld1 ∧ envDeadK1.pageAlive sOld1 = false ∧
      envDeadK1.launchOk = true) ∧
    (∃ sN st', getOrCreateSession envDeadK1 "k1" stTwo = .ok (sN, st') ∧
      sN = { browser := stTwo.nextHandle, context := stTwo.nextHandle + 1,
             page := stTwo.nextHandle + 2, createdAt := envDeadK1.now } ∧
      getKey st'.sessions "k1" = some sN ∧
      (∀ k', k' ≠ "k1" → getKey st'.sessions k' = getKey stTwo.sessions k') ∧
      st'.browserInstance = some stTwo.nextHandle ∧
      st'.browserInstance ≠ stTwo.browserInstance) :=
  ⟨⟨by decide, by decide, by decide⟩,
   getOrCreateSession_probe_failure_purges_only_k envDeadK1 "k1" stTwo sOld1
     (by decide) (by decide) (by decide) (by decide)⟩

/-! ## Claim theorems: validation and dispatcher -/

/-- C10. For a registered tool, an argument map whose required keys are
all present and whose values each either are `null` or match the
declared type validates successfully: presence of a key bound to `null`
satisfies the required-key check, and the `value !== null` conjunct
exempts `null` from the type check, so explicit nulls reach the
handler. -/
theorem validateInput_null_passes (toolName : String) (tool : MCPTool)
    (input : List (String × JSValue))
    (hreg : getKey toolSchemas toolName = some tool)
    (hpresent : ∀ k ∈ tool.required, hasKey input k = true)
    (hok : ∀ kv ∈ input, kv.2 = JSValue.null ∨
      Option.all (fun p => p.type == actualTypeJS kv.2) (getKey tool.properties kv.1) = true) :
    validateInput toolName input = { valid := true, error := none } := by
  have h1 : tool.required.find? (fun k => !(hasKey input k)) = none := by
    rw [List.find?_eq_none]
    intro k hk
    simp [hpresent k hk]
  have h2 : input.find? (fun kv =>
      match getKey tool.properties kv.1 with
      | some p => decide (p.type ≠ actualTypeJS kv.2 ∧ kv.2 ≠ .null)
      | none => false) = none := by
    rw [List.find?_eq_none]
    intro kv hkv
    rcases hok kv hkv with hnull | hty
    · cases hp : getKey tool.properties kv.1 <;> simp [hnull]
    · cases hp : getKey tool.properties kv.1 with
      | none => simp
      | some p =>
        rw [hp] at hty
        simp [Option.all] at hty
        simp [hty]
  unfold validateInput
  rw [hreg]
  dsimp only
  rw [h1]
  dsimp only
  rw [h2]

/-- C10 witness: `open_page` with an explicitly null `url` validates. -/
theorem validateInput_null_passes_at_example :
    validateInput "open_page" [("url", JSValue.null)] = { valid := true, error := none } :=
  validateInput_null_passes "open_page" _ [("url", JSValue.null)] rfl (by decide) (by decide)

/-- C4. The dispatcher boundary of `execute` converts every failure to
a structured envelope: a validation failure is returned as
`success: false` with the validation message, and a handler error
(thrown validation error, engine failure or workflow failure,
surfacing as a `failure` dispatch result) is returned as
`success: false` with the error message and the resolved session key.
`execute` itself is a total function, so no exception reaches the
caller. -/
theorem execute_error_envelope
    (benv : BrowserEnv) (penv : PageEnv) (wenv : WorkflowEnv) (store : WorkflowStore)
    (req : ToolCallRequest) (st : BrowserManager) :
    ((validateInput req.tool req.arguments).valid = false →
      execute benv penv wenv store req st =
        ({ success := false, data := none, error := (validateInput req.tool req.arguments).error,
           sessionId := selectSessionId benv req st }, st)) ∧
    (∀ m st', (validateInput req.tool req.arguments).valid = true →
      dispatch benv penv wenv store req.tool req.arguments (selectSessionId benv req st) st =
        .failure m st' →
      execute benv penv wenv store req st =
        ({ success := false, data := none, error := some m,
           sessionId := selectSessionId benv req st }, st')) := by
  constructor
  · intro hv
    simp [execute, hv]
  · intro m st' hv hd
    simp [execute, hv, hd]

/-- Fixture: page capabilities in which only `page.click` fails. -/
def envPClickFail : PageEnv :=
  { isValidUrl := fun _ => true, gotoRes := fun _ _ => .ok (), pageUrl := fun _ => "u",
    titleRes := fun _ => .ok "t", clickRes := fun _ _ => .error "click failed",
    fillRes := fun _ _ _ => .ok (), waitRes := fun _ _ _ => .ok (),
    shotRes := fun _ => .ok "B" }

/-- Fixture: workflow capabilities in which every step succeeds. -/
def envWOk : WorkflowEnv :=
  { stepClock := fun _ => 0, timedOut := fun _ => false, duration := fun _ => 7,
    gotoRes := fun _ => .ok (), pageUrl := fun _ => "u", titleRes := fun _ => .ok "t",
    clickRes := fun _ => .ok (), fillRes := fun _ => .ok (), waitRes := fun _ => .ok (),
    pollEnabled := fun _ => true, shotRes := fun _ => .ok "B" }

/-- Fixture: an empty workflow store. -/
def storeNone : WorkflowStore := { found := fun _ => false, parsed := fun _ => .error "no file" }

/-- Fixture: a click request against the registered session `k`. -/
def reqClick : ToolCallRequest := { tool := "click", arguments := [("selector", .str "#b")], sessionId := some "k" }

/-- C4 witness: a click whose engine call fails is returned as a
`success: false` envelope with the engine message. -/
theorem execute_error_envelope_at_example :
    ((validateInput reqClick.tool reqClick.arguments).valid = true ∧
      dispatch envAlive envPClickFail envWOk storeNone reqClick.tool reqClick.arguments
        (selectSessionId envAlive reqClick stOne) stOne = .failure "click failed" stOne) ∧
    execute envAlive envPClickFail envWOk storeNone reqClick stOne =
      ({ success := false, data := none, error := some "click failed",
         sessionId := selectSessionId envAlive reqClick stOne }, stOne) :=
  ⟨⟨by decide, by decide⟩,
   (execute_error_envelope envAlive envPClickFail envWOk storeNone reqClick stOne).2
     "click failed" stOne (by decide) (by decide)⟩

/-- Freshness of `createSession`: a session it returns carries a page
identity the allocator had not yet handed out, and the current clock as
creation time. -/
theorem createSession_fresh (env : BrowserEnv) (k : String) (st0 : BrowserManager)
    (s : BrowserSession) (st' : BrowserManager)
    (h : createSession env k st0 = .ok (s, st')) :
    st0.nextHandle < s.page ∧ s.createdAt = env.now := by
  unfold createSession mkSessionOn at h
  rcases hbi : st0.browserInstance with _ | b
  · rcases hl : env.launchOk <;> simp [hbi, hl] at h
    obtain ⟨hs, -⟩ := h
    subst hs
    exact ⟨by dsimp only; omega, rfl⟩
  · rcases hc : env.browserConnected b
    · rcases hl : env.launchOk <;> simp [hbi, hc, hl] at h
      obtain ⟨hs, -⟩ := h
      subst hs
      exact ⟨by dsimp only; omega, rfl⟩
    · simp [hbi, hc] at h
      obtain ⟨hs, -⟩ := h
      subst hs
      exact ⟨by dsimp only; omega, rfl⟩

/-- Freshness of `getOrCreateSession` on an unregistered key. -/
theorem getOrCreateSession_fresh (env : BrowserEnv) (k : String) (st : BrowserManager)
    (s : BrowserSession) (st' : BrowserManager)
    (habs : getKey st.sessions k = none)
    (hcall : getOrCreateSession env k st = .ok (s, st')) :
    st.nextHandle < s.page ∧ s.createdAt = env.now := by
  unfold getOrCreateSession at hcall
  split_ifs at hcall with hinit <;> dsimp only at hcall <;> rw [habs] at hcall <;>
    first
    | exact createSession_fresh env k st s st' hcall
    | exact createSession_fresh env k
        { sessions := st.sessions, browserInstance := st.browserInstance,
          lastSessionId := st.lastSessionId, initializationComplete := true,
          nextHandle := st.nextHandle } s st' hcall

/-- C7. An `execute_workflow` request always runs under a freshly
generated session key: the selection ignores both the caller-supplied
`sessionId` and the remembered last-used key, and when the generated
key is unregistered (pages allocated so far all predate the allocator
mark), the session the run acquires is a brand-new one, distinct from
every session registered before the call. -/
theorem executeWorkflow_fresh_session
    (benv : BrowserEnv) (req : ToolCallRequest) (st : BrowserManager)
    (h : req.tool = "execute_workflow") :
    selectSessionId benv req st = generateSessionId benv ∧
    (∀ sid' last',
      selectSessionId benv { req with sessionId := sid' } { st with lastSessionId := last' } =
        generateSessionId benv) ∧
    (∀ s st', hasKey st.sessions (generateSessionId benv) = false →
      (∀ kv ∈ st.sessions, kv.2.page < st.nextHandle) →
      getOrCreateSession benv (generateSessionId benv) st = .ok (s, st') →
      ∀ kv ∈ st.sessions, kv.2 ≠ s) := by
  refine ⟨by simp [selectSessionId, h], fun sid' last' => by simp [selectSessionId, h], ?_⟩
  intro s st' habs hpages hcall kv hkv
  have hfresh := getOrCreateSession_fresh benv (generateSessionId benv) st s st'
    (getKey_of_hasKey_false st.sessions (generateSessionId benv) habs) hcall
  intro he
  have := hpages kv hkv
  rw [he] at this
  omega

/-- Fixture: a workflow request carrying a caller-supplied key. -/
def reqWorkflow : ToolCallRequest :=
  { tool := "execute_workflow", arguments := [("workflow", .str "wf")], sessionId := some "caller-key" }

/-- C7 witness at a concrete state whose one session predates the
allocator mark. -/
theorem executeWorkflow_fresh_session_at_example :
    selectSessionId envAlive reqWorkflow stOne = generateSessionId envAlive ∧
    (∀ s st', hasKey stOne.sessions (generateSessionId envAlive) = false →
      (∀ kv ∈ stOne.sessions, kv.2.page < stOne.nextHandle) →
      getOrCreateSession envAlive (generateSessionId envAlive) stOne = .ok (s, st') →
      ∀ kv ∈ stOne.sessions, kv.2 ≠ s) :=
  ⟨(executeWorkflow_fresh_session envAlive reqWorkflow stOne rfl).1,
   (executeWorkflow_fresh_session envAlive reqWorkflow stOne rfl).2.2⟩

/-- C8. `open_page` with a string the URL parser rejects fails with the
validation error before any session acquisition: the response is the
structured `Invalid URL` failure and the manager state - in particular
the session collection - is returned exactly as it was. -/
theorem openPage_invalid_url_no_session
    (benv : BrowserEnv) (penv : PageEnv) (wenv : WorkflowEnv) (store : WorkflowStore)
    (u : String) (sid : Option String) (st : BrowserManager)
    (hbad : penv.isValidUrl u = false) :
    execute benv penv wenv store
      { tool := "open_page", arguments := [("url", .str u)], sessionId := sid } st =
      ({ success := false, data := none, error := some ("Invalid URL: " ++ u),
         sessionId := selectSessionId benv
           { tool := "open_page", arguments := [("url", .str u)], sessionId := sid } st }, st) := by
  have hv : validateInput "open_page" [("url", JSValue.str u)] = { valid := true, error := none } := by
    unfold validateInput
    simp [toolSchemas, getKey, hasKey, actualTypeJS, typeofJS, isArrayJS]
  simp [execute, dispatch, handleOpenPage, hv, hbad, getKey]

/-- Fixture: page capabilities whose URL parser rejects everything. -/
def envPNoUrl : PageEnv :=
  { isValidUrl := fun _ => false, gotoRes := fun _ _ => .ok (), pageUrl := fun _ => "u",
    titleRes := fun _ => .ok "t", clickRes := fun _ _ => .ok (),
    fillRes := fun _ _ _ => .ok (), waitRes := fun _ _ _ => .ok (),
    shotRes := fun _ => .ok "B" }

/-- C8 witness: `open_page("not a url")` on an empty manager returns
the `Invalid URL` failure and leaves the state untouched. -/
theorem openPage_invalid_url_no_session_at_example :
    envPNoUrl.isValidUrl "not a url" = false ∧
    execute envAlive envPNoUrl envWOk storeNone
      { tool := "open_page", arguments := [("url", .str "not a url")], sessionId := none }
      { sessions := [], browserInstance := none, lastSessionId := none,
        initializationComplete := false, nextHandle := 0 } =
      ({ success := false, data := none, error := some ("Invalid URL: " ++ "not a url"),
         sessionId := selectSessionId envAlive
           { tool := "open_page", arguments := [("url", .str "not a url")], sessionId := none }
           { sessions := [], browserInstance := none, lastSessionId := none,
             initializationComplete := false, nextHandle := 0 } },
       { sessions := [], browserInstance := none, lastSessionId := none,
         initializationComplete := false, nextHandle := 0 }) :=
  ⟨by decide,
   openPage_invalid_url_no_session envAlive envPNoUrl envWOk storeNone "not a url" none
     { sessions := [], browserInstance := none, lastSessionId := none,
       initializationComplete := false, nextHandle := 0 } (by decide)⟩

/-! ## Claim theorems: workflow engine -/

/-- The settled outcome of one loop iteration: the race of the
substituted step against the ceiling. -/
def stepOutcome (env : WorkflowEnv) (i : Nat) (step : WorkflowStep) : Except String StepValue :=
  raceStep env i (substTimestampStep (workflowTimestamp (env.stepClock i)) step)

theorem substTimestampStep_action (ts : String) (step : WorkflowStep) :
    (substTimestampStep ts step).action = step.action := by
  unfold substTimestampStep
  cases step.arguments.text <;> simp <;> split_ifs <;> rfl

theorem substTimestampStep_description (ts : String) (step : WorkflowStep) :
    (substTimestampStep ts step).description = step.description := by
  unfold substTimestampStep
  cases step.arguments.text <;> simp <;> split_ifs <;> rfl

/-- One unfolding of the loop. -/
theorem runSteps_cons (env : WorkflowEnv) (step : WorkflowStep) (rest : List WorkflowStep)
    (i : Nat) :
    runSteps env (step :: rest) i =
      match stepOutcome env i step with
      | .ok v =>
        (({ step := i + 1, action := step.action, description := step.description,
            success := true, result := some v, error := none,
            duration := env.duration i } : StepRecord) :: (runSteps env rest (i + 1)).1,
         (runSteps env rest (i + 1)).2)
      | .error msg =>
        ([{ step := i + 1, action := step.action, description := step.description,
            success := false, result := none, error := some msg,
            duration := env.duration i }],
         some (workflowStopMsg i step.description (env.duration i) msg)) := by
  unfold stepOutcome
  simp only [runSteps]
  cases h : raceStep env i (substTimestampStep (workflowTimestamp (env.stepClock i)) step) with
  | ok v => simp [substTimestampStep_action, substTimestampStep_description]
  | error m => simp [substTimestampStep_action, substTimestampStep_description]

/-- The loop executes steps strictly in order up to the first failure
and then stops. -/
theorem runSteps_first_failure (wenv : WorkflowEnv) :
    ∀ (steps : List WorkflowStep) (i j : Nat) (hj : j < steps.length) (msg : String),
    (∀ t (ht : t < j), (stepOutcome wenv (i + t) (steps.get ⟨t, by omega⟩)).isOk = true) →
    stepOutcome wenv (i + j) (steps.get ⟨j, hj⟩) = .error msg →
    (runSteps wenv steps i).2 =
      some (workflowStopMsg (i + j) (steps.get ⟨j, hj⟩).description (wenv.duration (i + j)) msg) ∧
    (runSteps wenv steps i).1.length = j + 1 ∧
    (∀ t, t < j + 1 → ∃ r, (runSteps wenv steps i).1[t]? = some r ∧
      r.step = i + t + 1 ∧ r.success = decide (t < j)) := by
  intro steps
  induction steps with
  | nil =>
    intro i j hj
    exact absurd hj (by simp)
  | cons s0 rest ih =>
    intro i j hj msg hprev hfail
    cases j with
    | zero =>
      have hf : stepOutcome wenv i s0 = .error msg := by simpa using hfail
      rw [runSteps_cons, hf]
      refine ⟨by simp, by simp, ?_⟩
      intro t ht
      have ht0 : t = 0 := by omega
      subst ht0
      exact ⟨_, rfl, by simp, by simp⟩
    | succ j' =>
      have h0 := hprev 0 (by omega)
      have hok0 : (stepOutcome wenv i s0).isOk = true := by simpa using h0
      obtain ⟨v, hv⟩ : ∃ v, stepOutcome wenv i s0 = .ok v := by
        cases ho : stepOutcome wenv i s0 with
        | ok v => exact ⟨v, rfl⟩
        | error e => rw [ho] at hok0; simp [Except.isOk, Except.toBool] at hok0
      have hj' : j' < rest.length := by simpa using hj
      have hprev' : ∀ t (ht : t < j'),
          (stepOutcome wenv (i + 1 + t) (rest.get ⟨t, by omega⟩)).isOk = true := by
        intro t ht
        have hp := hprev (t + 1) (by omega)
        have harith : i + (t + 1) = i + 1 + t := by omega
        rw [harith] at hp
        simpa using hp
      have hfail' : stepOutcome wenv (i + 1 + j') (rest.get ⟨j', hj'⟩) = .error msg := by
        have harith : i + (j' + 1) = i + 1 + j' := by omega
        rw [harith] at hfail
        simpa using hfail
      have ihr := ih (i + 1) j' hj' msg hprev' hfail'
      rw [runSteps_cons, hv]
      refine ⟨?_, ?_, ?_⟩
      · dsimp only
        have harith : i + (j' + 1) = i + 1 + j' := by omega
        rw [show ((s0 :: rest).get ⟨j' + 1, hj⟩) = rest.get ⟨j', hj'⟩ from rfl, harith]
        exact ihr.1
      · dsimp only
        simp only [List.length_cons, ihr.2.1]
      · intro t ht
        cases t with
        | zero =>
          dsimp only
          exact ⟨{ step := i + 1, action := s0.action, description := s0.description,
                   success := true, result := some v, error := none,
                   duration := wenv.duration i }, by simp, by simp,
                 (decide_eq_true (by omega : (0 : Nat) < j' + 1)).symm⟩
        | succ t' =>
          obtain ⟨r, hr1, hr2, hr3⟩ := ihr.2.2 t' (by omega)
          refine ⟨r, by simpa using hr1, by omega, ?_⟩
          rw [hr3]
          exact decide_eq_decide.mpr (by omega)

/-- C3. Within one workflow run the steps settle strictly in declared
order and the run is fail-stop: if every step before position `j`
settles successfully and step `j`'s race settles with an error, then
the loop's record log holds exactly the records of steps `1..j+1` in
order (so no step after the failing one ever starts - in this
sequential model each iteration's race is settled before the next
iteration exists), every record before the failing one is marked
successful, the failing one is marked `success := false`, and the run
terminates with the `WORKFLOW STOPPED` error naming the first failing
step, its description and its duration. -/
theorem workflow_fail_stop (wenv : WorkflowEnv) (steps : List WorkflowStep) (j : Nat)
    (hj : j < steps.length) (msg : String)
    (hprev : ∀ t (ht : t < j), (stepOutcome wenv t (steps.get ⟨t, by omega⟩)).isOk = true)
    (hfail : stepOutcome wenv j (steps.get ⟨j, hj⟩) = .error msg) :
    (runSteps wenv steps 0).2 =
      some (workflowStopMsg j (steps.get ⟨j, hj⟩).description (wenv.duration j) msg) ∧
    (runSteps wenv steps 0).1.length = j + 1 ∧
    (∀ t, t < j + 1 → ∃ r, (runSteps wenv steps 0).1[t]? = some r ∧
      r.step = t + 1 ∧ r.success = decide (t < j)) := by
  have haux := runSteps_first_failure wenv steps 0 j hj msg
    (fun t ht => by simpa using hprev t ht) (by simpa using hfail)
  refine ⟨by simpa using haux.1, haux.2.1, ?_⟩
  intro t ht
  obtain ⟨r, h1, h2, h3⟩ := haux.2.2 t ht
  exact ⟨r, h1, by omega, h3⟩

/-- Fixture: a successful navigation step. -/
def stepA : WorkflowStep :=
  { action := "open_page", arguments := ⟨some "https://a.example/", none, none, none⟩,
    description := "Open A", waitAfter := none }

/-- Fixture: a click step. -/
def stepB : WorkflowStep :=
  { action := "click", arguments := ⟨none, some "#b", none, none⟩,
    description := "Click B", waitAfter := none }

/-- Fixture: a screenshot step. -/
def stepC : WorkflowStep :=
  { action := "screenshot", arguments := ⟨none, none, none, none⟩,
    description := "Shot C", waitAfter := none }

/-- Fixture: workflow capabilities in which every click fails. -/
def envWFailB : WorkflowEnv := { envWOk with clickRes := fun _ => .error "boom" }

/-- C3 witness: on `[A(success), B(failure), C(success)]` the log stops
at the second record and the run fails naming step 2. -/
theorem workflow_fail_stop_at_example :
    (runSteps envWFailB [stepA, stepB, stepC] 0).2 =
      some (workflowStopMsg 1 stepB.description (envWFailB.duration 1) "boom") ∧
    (runSteps envWFailB [stepA, stepB, stepC] 0).1.length = 2 :=
  ⟨(workflow_fail_stop envWFailB [stepA, stepB, stepC] 1 (by decide) "boom" (by decide)
      (by rfl)).1,
   (workflow_fail_stop envWFailB [stepA, stepB, stepC] 1 (by decide) "boom" (by decide)
      (by rfl)).2.1⟩

/-- Fixture: the three-step workflow definition. -/
def wfABC : Workflow := { name := "wf", description := "demo", steps := [stepA, stepB, stepC] }

/-- Fixture: a store resolving only `wf`. -/
def storeABC : WorkflowStore := { found := fun n => n == "wf", parsed := fun _ => .ok wfABC }

/-- Fixture: an `execute_workflow` request for `wf`. -/
def reqWf : ToolCallRequest :=
  { tool := "execute_workflow", arguments := [("workflow", .str "wf")], sessionId := none }

/-- Fixture: a pristine manager state. -/
def stInit : BrowserManager :=
  { sessions := [], browserInstance := none, lastSessionId := none,
    initializationComplete := false, nextHandle := 0 }

/-- C2 counterexample. Running `[A(success), B(failure), C(success)]`
through `execute` returns an envelope whose `data` is `none`: the
response carries no per-step result records at all (the two accumulated
records are abandoned when the handler throws), not a two-entry log
with the second entry marked failed; only the stop message survives. -/
theorem workflow_failure_response_carries_no_records :
    (execute envAlive envPClickFail envWFailB storeABC reqWf stInit).1 =
      { success := false, data := none,
        error := some "WORKFLOW STOPPED: Step 2 (Click B) failed after 7ms - boom",
        sessionId := "session_50_zzz" } := by
  decide

/-- C2 amended. For a workflow shaped `[a(success), b(failure), c]`,
the loop's local record array does hold exactly the two records - the
first successful, the second marked failed - together with the thrown
stop message, but the response `execute` returns to the caller on the
failed run carries `data := none` (no per-step records) and only the
`WORKFLOW STOPPED` message identifying the first failing step; the
partial log is returned only on full success. -/
theorem workflow_failure_log_internal_only
    (benv : BrowserEnv) (penv : PageEnv) (wenv : WorkflowEnv) (store : WorkflowStore)
    (req : ToolCallRequest) (st : BrowserManager)
    (a b c : WorkflowStep) (v : StepValue) (msg name : String) (wf : Workflow)
    (hreq : req.tool = "execute_workflow")
    (hargs : getKey req.arguments "workflow" = some (.str name))
    (hname : name ≠ "")
    (hvalid : (validateInput req.tool req.arguments).valid = true)
    (hfound : store.found name = true)
    (hparsed : store.parsed name = .ok wf)
    (hsteps : wf.steps = [a, b, c])
    (hA : stepOutcome wenv 0 a = .ok v)
    (hB : stepOutcome wenv 1 b = .error msg) :
    runSteps wenv wf.steps 0 =
      ([{ step := 1, action := a.action, description := a.description, success := true,
          result := some v, error := none, duration := wenv.duration 0 },
        { step := 2, action := b.action, description := b.description, success := false,
          result := none, error := some msg, duration := wenv.duration 1 }],
       some (workflowStopMsg 1 b.description (wenv.duration 1) msg)) ∧
    (∀ s st₁, getOrCreateSession benv (generateSessionId benv) st = .ok (s, st₁) →
      execute benv penv wenv store req st =
        ({ success := false, data := none,
           error := some (workflowStopMsg 1 b.description (wenv.duration 1) msg),
           sessionId := generateSessionId benv }, st₁)) := by
  have hrun : runSteps wenv wf.steps 0 =
      ([{ step := 1, action := a.action, description := a.description, success := true,
          result := some v, error := none, duration := wenv.duration 0 },
        { step := 2, action := b.action, description := b.description, success := false,
          result := none, error := some msg, duration := wenv.duration 1 }],
       some (workflowStopMsg 1 b.description (wenv.duration 1) msg)) := by
    rw [hsteps, runSteps_cons, hA]
    dsimp only
    rw [runSteps_cons, hB]
  refine ⟨hrun, ?_⟩
  intro s st₁ hsess
  rw [hreq] at hvalid
  have hsel : selectSessionId benv req st = generateSessionId benv := by
    simp [selectSessionId, hreq]
  simp [execute, dispatch, handleExecuteWorkflow, hreq, hvalid, hargs, hname, hfound,
    hparsed, hsel, hsess, hrun]

/-- C2 witness for the amended theorem, at the concrete fixtures: the
failed three-step run returns the stop message and no records. -/
theorem workflow_failure_log_internal_only_at_example :
    execute envAlive envPClickFail envWFailB storeABC reqWf stInit =
      ({ success := false, data := none,
         error := some (workflowStopMsg 1 stepB.description (envWFailB.duration 1) "boom"),
         sessionId := generateSessionId envAlive },
       { sessions := [("session_50_zzz", ⟨0, 1, 2, 50⟩)], browserInstance := some 0,
         lastSessionId := some "session_50_zzz", initializationComplete := true,
         nextHandle := 3 }) :=
  (workflow_failure_log_internal_only envAlive envPClickFail envWFailB storeABC reqWf stInit
    stepA stepB stepC (.page "u" "t") "boom" "wf" wfABC rfl rfl (by decide) (by decide)
    (by decide) rfl rfl rfl rfl).2 ⟨0, 1, 2, 50⟩
    { sessions := [("session_50_zzz", ⟨0, 1, 2, 50⟩)], browserInstance := some 0,
      lastSessionId := some "session_50_zzz", initializationComplete := true,
      nextHandle := 3 } (by rfl)

/-! ## Claim theorems: timestamps

The distinctness of two formatted timestamps taken at least a second
apart reduces to injectivity of the calendar conversion, proved by
inverting `civilFromDays` with `daysFromCivil`. -/

theorem yoe_core (doe : Nat) (h : doe < 146097) :
    365 * ((doe - doe / 1460 + doe / 36524 - doe / 146096) / 365) +
      ((doe - doe / 1460 + doe / 36524 - doe / 146096) / 365) / 4 -
      ((doe - doe / 1460 + doe / 36524 - doe / 146096) / 365) / 100 ≤ doe ∧
    doe - (365 * ((doe - doe / 1460 + doe / 36524 - doe / 146096) / 365) +
      ((doe - doe / 1460 + doe / 36524 - doe / 146096) / 365) / 4 -
      ((doe - doe / 1460 + doe / 36524 - doe / 146096) / 365) / 100) ≤ 365 ∧
    (doe - doe / 1460 + doe / 36524 - doe / 146096) / 365 ≤ 399 := by
  generalize hyoe : (doe - doe / 1460 + doe / 36524 - doe / 146096) / 365 = yoe
  have hb : yoe ≤ 400 := by omega
  interval_cases yoe <;> omega

theorem roundtrip_core (z era doe yoe doy mp m d y : Nat)
    (hera : era = z / 146097) (hdoe : doe = z % 146097)
    (h1 : 365 * yoe + yoe / 4 - yoe / 100 ≤ doe)
    (h3 : yoe ≤ 399)
    (hdoy : doy = doe - (365 * yoe + yoe / 4 - yoe / 100))
    (hdoy2 : doy ≤ 365)
    (hmp : mp = (5 * doy + 2) / 153)
    (hd : d = doy - (153 * mp + 2) / 5 + 1)
    (hm : m = if mp < 10 then mp + 3 else mp - 9)
    (hy : y = if m ≤ 2 then yoe + era * 400 + 1 else yoe + era * 400)
    (hzlb : 719468 ≤ z) :
    daysFromCivil y m d = z - 719468 := by
  have hmp11 : mp ≤ 11 := by omega
  have hmple : (153 * mp + 2) / 5 ≤ doy := by omega
  have hdle : d ≤ 31 := by omega
  simp only [daysFromCivil]
  have hy' : (if m ≤ 2 then y - 1 else y) = yoe + era * 400 := by
    split_ifs at hm hy ⊢ <;> omega
  rw [hy']
  have he : (yoe + era * 400) / 400 = era := by omega
  rw [he]
  have hyoe2 : yoe + era * 400 - era * 400 = yoe := by omega
  rw [hyoe2]
  have hmp2 : (if m > 2 then m - 3 else m + 9) = mp := by
    split_ifs at hm ⊢ <;> omega
  rw [hmp2]
  have hdoy3 : (153 * mp + 2) / 5 + d - 1 = doy := by omega
  rw [hdoy3]
  omega

theorem bounds_core (z era doe yoe doy mp m d y : Nat)
    (hera : era = z / 146097) (hdoe : doe = z % 146097)
    (h1 : 365 * yoe + yoe / 4 - yoe / 100 ≤ doe)
    (h3 : yoe ≤ 399)
    (hdoy : doy = doe - (365 * yoe + yoe / 4 - yoe / 100))
    (hdoy2 : doy ≤ 365)
    (hmp : mp = (5 * doy + 2) / 153)
    (hd : d = doy - (153 * mp + 2) / 5 + 1)
    (hm : m = if mp < 10 then mp + 3 else mp - 9)
    (hy : y = if m ≤ 2 then yoe + era * 400 + 1 else yoe + era * 400)
    (hzub : z ≤ 3652364) :
    y ≤ 9999 ∧ 1 ≤ m ∧ m ≤ 12 ∧ 1 ≤ d ∧ d ≤ 31 := by
  split_ifs at hm hy <;> omega

theorem civil_roundtrip (days y m d : Nat) (h : civilFromDays days = (y, m, d)) :
    daysFromCivil y m d = days := by
  simp only [civilFromDays, Prod.mk.injEq] at h
  obtain ⟨hy, hm, hd⟩ := h
  rw [hm] at hy
  obtain ⟨h1, h2, h3⟩ := yoe_core ((days + 719468) % 146097) (by omega)
  have := roundtrip_core (days + 719468) ((days + 719468) / 146097)
    ((days + 719468) % 146097) _ _ _ m d y rfl rfl h1 h3 rfl (by omega) rfl
    hd.symm hm.symm hy.symm (by omega)
  omega

theorem civil_bounds (days y m d : Nat) (hub : days ≤ 2932896)
    (h : civilFromDays days = (y, m, d)) :
    y ≤ 9999 ∧ 1 ≤ m ∧ m ≤ 12 ∧ 1 ≤ d ∧ d ≤ 31 := by
  simp only [civilFromDays, Prod.mk.injEq] at h
  obtain ⟨hy, hm, hd⟩ := h
  rw [hm] at hy
  obtain ⟨h1, h2, h3⟩ := yoe_core ((days + 719468) % 146097) (by omega)
  exact bounds_core (days + 719468) ((days + 719468) / 146097)
    ((days + 719468) % 146097) _ _ _ m d y rfl rfl h1 h3 rfl (by omega) rfl
    hd.symm hm.symm hy.symm (by omega)

theorem digit_inj (a b : Nat) (ha : a < 10) (hb : b < 10)
    (h : Char.ofNat (48 + a) = Char.ofNat (48 + b)) : a = b := by
  interval_cases a <;> interval_cases b <;> simp_all

theorem replaceTsChar_digit (k : Nat) :
    replaceTsChar (Char.ofNat (48 + k % 10)) = Char.ofNat (48 + k % 10) := by
  have h : k % 10 < 10 := Nat.mod_lt _ (by norm_num)
  generalize k % 10 = j at h ⊢
  interval_cases j <;> decide

theorem replaceTsChar_ne (c : Char) : replaceTsChar c ≠ ':' ∧ replaceTsChar c ≠ '.' := by
  unfold replaceTsChar
  split_ifs with h
  · exact ⟨by decide, by decide⟩
  · push_neg at h
    exact h

theorem replaceTsChar_colon : replaceTsChar ':' = '-' := rfl

theorem replaceTsChar_dot : replaceTsChar '.' = '-' := rfl

theorem replaceTsChar_T : replaceTsChar 'T' = 'T' := rfl

theorem replaceTsChar_Z : replaceTsChar 'Z' = 'Z' := rfl

theorem replaceTsChar_dash : replaceTsChar '-' = '-' := rfl

theorem isoChars_map (t : Nat) : (isoChars t).map replaceTsChar =
    (padFour (civilFromDays (t / 1000 / 86400)).1 ++
     '-' :: padTwo (civilFromDays (t / 1000 / 86400)).2.1 ++
     '-' :: padTwo (civilFromDays (t / 1000 / 86400)).2.2 ++
     'T' :: padTwo (t / 1000 / 3600 % 24) ++
     '-' :: padTwo (t / 1000 / 60 % 60) ++
     '-' :: padTwo (t / 1000 % 60)) ++
    ('-' :: padThree (t % 1000) ++ ['Z']) := by
  simp only [isoChars, padFour, padTwo, padThree,
    List.map_append, List.map_cons, List.map_nil, List.cons_append, List.nil_append,
    List.append_assoc, replaceTsChar_digit, replaceTsChar_colon, replaceTsChar_dot,
    replaceTsChar_T, replaceTsChar_Z, replaceTsChar_dash]

theorem fmtTimestampChars_shape (t : Nat) :
    fmtTimestampChars t =
      padFour (civilFromDays (t / 1000 / 86400)).1 ++
      '-' :: padTwo (civilFromDays (t / 1000 / 86400)).2.1 ++
      '-' :: padTwo (civilFromDays (t / 1000 / 86400)).2.2 ++
      'T' :: padTwo (t / 1000 / 3600 % 24) ++
      '-' :: padTwo (t / 1000 / 60 % 60) ++
      '-' :: padTwo (t / 1000 % 60) := by
  simp only [fmtTimestampChars]
  rw [isoChars_map t]
  rw [List.length_append]
  have hB : (('-' :: padThree (t % 1000) ++ ['Z'] : List Char)).length = 5 := by
    simp only [padThree, List.length_append, List.length_cons, List.length_nil]
  rw [hB, Nat.add_sub_cancel]
  exact List.take_left _ _

theorem fmt_seconds_inj (t1 t2 : Nat)
    (hub1 : t1 < 253402300800000) (hub2 : t2 < 253402300800000)
    (h : fmtTimestampChars t1 = fmtTimestampChars t2) : t1 / 1000 = t2 / 1000 := by
  rcases hc1 : civilFromDays (t1 / 1000 / 86400) with ⟨y1, m1, d1⟩
  rcases hc2 : civilFromDays (t2 / 1000 / 86400) with ⟨y2, m2, d2⟩
  rw [fmtTimestampChars_shape, fmtTimestampChars_shape, hc1, hc2] at h
  simp only [padFour, padTwo, List.cons_append, List.nil_append, List.append_assoc,
    List.cons.injEq, List.nil_eq, and_true, true_and] at h
  obtain ⟨e1, e2, e3, e4, e5, e6, e7, e8, e9, e10, e11, e12, e13, e14⟩ := h
  have hb1 := civil_bounds (t1 / 1000 / 86400) y1 m1 d1 (by omega) hc1
  have hb2 := civil_bounds (t2 / 1000 / 86400) y2 m2 d2 (by omega) hc2
  have hy : y1 = y2 := by
    have q1 := digit_inj _ _ (Nat.mod_lt _ (by norm_num)) (Nat.mod_lt _ (by norm_num)) e1
    have q2 := digit_inj _ _ (Nat.mod_lt _ (by norm_num)) (Nat.mod_lt _ (by norm_num)) e2
    have q3 := digit_inj _ _ (Nat.mod_lt _ (by norm_num)) (Nat.mod_lt _ (by norm_num)) e3
    have q4 := digit_inj _ _ (Nat.mod_lt _ (by norm_num)) (Nat.mod_lt _ (by norm_num)) e4
    omega
  have hm : m1 = m2 := by
    have q1 := digit_inj _ _ (Nat.mod_lt _ (by norm_num)) (Nat.mod_lt _ (by norm_num)) e5
    have q2 := digit_inj _ _ (Nat.mod_lt _ (by norm_num)) (Nat.mod_lt _ (by norm_num)) e6
    omega
  have hd : d1 = d2 := by
    have q1 := digit_inj _ _ (Nat.mod_lt _ (by norm_num)) (Nat.mod_lt _ (by norm_num)) e7
    have q2 := digit_inj _ _ (Nat.mod_lt _ (by norm_num)) (Nat.mod_lt _ (by norm_num)) e8
    omega
  have hdays : t1 / 1000 / 86400 = t2 / 1000 / 86400 := by
    have r1 := civil_roundtrip (t1 / 1000 / 86400) y1 m1 d1 hc1
    have r2 := civil_roundtrip (t2 / 1000 / 86400) y2 m2 d2 hc2
    rw [hy, hm, hd] at r1
    omega
  have hh : t1 / 1000 / 3600 % 24 = t2 / 1000 / 3600 % 24 := by
    have q1 := digit_inj _ _ (Nat.mod_lt _ (by norm_num)) (Nat.mod_lt _ (by norm_num)) e9
    have q2 := digit_inj _ _ (Nat.mod_lt _ (by norm_num)) (Nat.mod_lt _ (by norm_num)) e10
    omega
  have hmi : t1 / 1000 / 60 % 60 = t2 / 1000 / 60 % 60 := by
    have q1 := digit_inj _ _ (Nat.mod_lt _ (by norm_num)) (Nat.mod_lt _ (by norm_num)) e11
    have q2 := digit_inj _ _ (Nat.mod_lt _ (by norm_num)) (Nat.mod_lt _ (by norm_num)) e12
    omega
  have hs : t1 / 1000 % 60 = t2 / 1000 % 60 := by
    have q1 := digit_inj _ _ (Nat.mod_lt _ (by norm_num)) (Nat.mod_lt _ (by norm_num)) e13
    have q2 := digit_inj _ _ (Nat.mod_lt _ (by norm_num)) (Nat.mod_lt _ (by norm_num)) e14
    omega
  omega

/-- Fixture: a step whose url argument contains the placeholder token
but whose `text` argument is absent. -/
def stepTs : WorkflowStep :=
  { action := "open_page",
    arguments := ⟨some "https://x.example/{timestamp}", none, none, none⟩,
    description := "Open", waitAfter := none }

/-- C9 counterexample. The per-step substitution (lines 643-647 of the
dispatcher) touches only the `text` argument: a step whose `url`
argument textually contains the placeholder token passes through the
substitution completely unchanged, so the token is not substituted in
every textual argument. -/
theorem timestamp_url_not_substituted :
    stepTs.arguments.url = some "https://x.example/{timestamp}" ∧
    substTimestampStep (workflowTimestamp 0) stepTs = stepTs :=
  ⟨rfl, rfl⟩

/-- C9 amended. The per-step substitution replaces only the first
placeholder occurrence in the step's `text` argument, leaving the
action, description and every other argument unchanged; the per-step
timestamp string never contains a colon or a period; and the timestamps
of two instants at least one second apart (within the formatter's
year-0..9999 domain) differ. -/
theorem timestamp_substitution_amended :
    (∀ ts step, (substTimestampStep ts step).action = step.action ∧
      (substTimestampStep ts step).description = step.description ∧
      (substTimestampStep ts step).waitAfter = step.waitAfter ∧
      (substTimestampStep ts step).arguments.url = step.arguments.url ∧
      (substTimestampStep ts step).arguments.selector = step.arguments.selector ∧
      (substTimestampStep ts step).arguments.timeout = step.arguments.timeout ∧
      (substTimestampStep ts step).arguments.text =
        (match step.arguments.text with
         | some s => if s = "" then some s else some (replaceFirst s "{timestamp}" ts)
         | none => none)) ∧
    (∀ t c, c ∈ fmtTimestampChars t → c ≠ ':' ∧ c ≠ '.') ∧
    (∀ t1 t2, t1 < 253402300800000 → t2 < 253402300800000 → t1 + 1000 ≤ t2 →
      workflowTimestamp t1 ≠ workflowTimestamp t2) := by
  refine ⟨?_, ?_, ?_⟩
  · intro ts step
    unfold substTimestampStep
    cases h : step.arguments.text with
    | none => simp [h]
    | some str =>
      by_cases hs : str = ""
      · simp [h, hs]
      · simp [h, hs]
  · intro t c hc
    unfold fmtTimestampChars at hc
    have hc' : c ∈ (isoChars t).map replaceTsChar := List.take_subset _ _ hc
    obtain ⟨a, -, ha⟩ := List.mem_map.mp hc'
    rw [← ha]
    exact replaceTsChar_ne a
  · intro t1 t2 hub1 hub2 hsep h
    have hlist : fmtTimestampChars t1 = fmtTimestampChars t2 := by
      have := congrArg String.data h
      simpa [workflowTimestamp] using this
    have := fmt_seconds_inj t1 t2 hub1 hub2 hlist
    omega

/-- C9 witness: two instants one second apart in 2025 format to
different timestamps. -/
theorem timestamp_substitution_amended_witness :
    workflowTimestamp 1760140800000 ≠ workflowTimestamp 1760140801000 :=
  timestamp_substitution_amended.2.2 1760140800000 1760140801000 (by decide) (by decide)
    (by decide)

end PMCP
